import Mathlib

/-!
Verification of the navigation/caching core of the Act2 quest bot
(`src/Act2-1.py`) against its specification.

The Python source is shallowly embedded: pure computations become Lean
functions, the on-disk cache becomes an explicit store value threaded
through the operations, the filesystem (map-file corpus, dataset files)
becomes a function from identifiers/paths to optional parsed contents,
and the external HTTP routing service and the game-control position
feed become oracle functions packaged in a `World` value.

The file is organized as definitions first, then theorems.
-/

/-! # Definitions -/

/-! ## Decimal rendering of integers

Python builds cache keys with f-strings such as `f"npc_location_{npc_vnum}"`
and `f"{from_map}_to_{to_map}"`, which render the integer in decimal.
`natDecRepr` is that decimal rendering (as a list of characters); the
auxiliary function carries structural fuel so that it reduces by kernel
evaluation.  `digitsVal` evaluates a digit string back to the number and
serves as a left inverse, giving injectivity of the rendering. -/

def natDecReprAux : Nat → Nat → List Char
  | 0, _ => []
  | fuel + 1, n =>
    if n < 10 then [Nat.digitChar n]
    else natDecReprAux fuel (n / 10) ++ [Nat.digitChar (n % 10)]

def natDecRepr (n : Nat) : List Char := natDecReprAux (n + 1) n

def natStr (n : Nat) : String := ⟨natDecRepr n⟩

/-- Value of a decimal digit string (48 is the code point of the digit 0). -/
def digitsVal (l : List Char) : Nat :=
  l.foldl (fun acc c => acc * 10 + (c.toNat - 48)) 0

/-! ## CacheManager (`src/Act2-1.py` lines 92-129)

The on-disk cache maps a cache type (a directory) and a key (a file inside
it) to a stored JSON value.  We model the store as a function from the two
strings to an optional value; values are polymorphic, standing for any
JSON-serializable payload which survives the serialize/deserialize round
trip unchanged.  `get` reads a file and does not modify the store; `getS`
returns the value paired with the (unchanged) store to make that explicit.
`set` serializes and overwrites unconditionally. -/

def Store (V : Type) : Type := String → String → Option V

def Store.empty {V : Type} : Store V := fun _ _ => none

namespace CacheManager

def get {V : Type} (c : Store V) (cache_type key : String) : Option V :=
  c cache_type key

def getS {V : Type} (c : Store V) (cache_type key : String) :
    Option V × Store V :=
  (c cache_type key, c)

def set {V : Type} (c : Store V) (cache_type key : String) (value : V) :
    Store V :=
  fun t k => if t = cache_type ∧ k = key then some value else c t k

end CacheManager

/-! ## Static Game Dataset: configuration and entity indexes
(`src/Act2-1.py` lines 26-33 and 135-209)

The module-level path constants, flattened to plain strings.  Line 31 of
the source reads `NPCS_JSON = DATA_PATH / "monsters.json"`, so the NPC
constant points at the monster definitions file. -/

def DATA_PATH : String := "./data"

def NPCS_JSON : String := DATA_PATH ++ "/monsters.json"

def MONSTERS_JSON : String := DATA_PATH ++ "/monsters.json"

def MAPS_JSON : String := DATA_PATH ++ "/maps.json"

/-- An entity record (NPC or monster): integer identifier and the
localized French display name.  `nameFr = none` models a record whose
`name` object or `fr` field is absent (the code defaults it to `""`);
other gameplay attributes are opaque to the core and omitted. -/
structure Entity where
  id : Nat
  nameFr : Option (List Char)
deriving DecidableEq

/-- Contents of an entity definitions JSON file: either a top-level list
of records (indexed by `id` on load) or an already-keyed object. -/
inductive EntityFileData where
  | list (entities : List Entity)
  | dict (index : List (Nat × Entity))
deriving DecidableEq

/-- Insertion into a Python dict modelled as an association list in
insertion order: re-assigning an existing key updates the value in place,
a new key is appended. -/
def dictInsert (acc : List (Nat × Entity)) (k : Nat) (v : Entity) :
    List (Nat × Entity) :=
  if acc.any (fun p => p.1 == k) then
    acc.map (fun p => if p.1 == k then (k, v) else p)
  else acc ++ [(k, v)]

/-- `{npc["id"]: npc for npc in data}` (lines 160 and 170). -/
def indexById (es : List Entity) : List (Nat × Entity) :=
  es.foldl (fun acc e => dictInsert acc e.id e) []

/-- Values of the index in iteration order. -/
def dictValues (d : List (Nat × Entity)) : List Entity := d.map (fun p => p.2)

/-- Parse one entity definitions source (lines 154-173): a missing file
yields an empty index; a list is indexed by id; a dict is kept as-is. -/
def loadEntityFile : Option EntityFileData → List (Nat × Entity)
  | none => []
  | some (.list es) => indexById es
  | some (.dict d) => d

/-- The entity indexes built by `GameDataManager.load_all_data`
(lines 151-191).  The filesystem is a function from file path to optional
parsed contents.  The map-metadata index (`maps_info`, used only for
display names) is not needed by any claim and is omitted. -/
structure GameData where
  npcs_data : List (Nat × Entity)
  monsters_data : List (Nat × Entity)

def load_all_data (fs : String → Option EntityFileData) : GameData :=
  { npcs_data := loadEntityFile (fs NPCS_JSON)
  , monsters_data := loadEntityFile (fs MONSTERS_JSON) }

/-- Python substring containment (`needle in haystack` on strings). -/
def isSubstringOf (xs : List Char) : List Char → Bool
  | [] => xs.isEmpty
  | y :: ys => xs.isPrefixOf (y :: ys) || isSubstringOf xs ys

/-- `GameDataManager.find_npc_by_name` (lines 193-200): first record in
iteration order whose lowercased French name contains, or is contained
in, the lowercased pattern. -/
def find_npc_by_name (name_pattern : List Char) (npcs : List Entity) :
    Option Entity :=
  let name_lower := name_pattern.map Char.toLower
  npcs.find? (fun npc =>
    let npc_name := (npc.nameFr.getD []).map Char.toLower
    isSubstringOf name_lower npc_name || isSubstringOf npc_name name_lower)

/-- `GameDataManager.find_monster_by_name` (lines 202-209): identical
logic over the monster index. -/
def find_monster_by_name (name_pattern : List Char) (monsters : List Entity) :
    Option Entity :=
  let name_lower := name_pattern.map Char.toLower
  monsters.find? (fun monster =>
    let monster_name := (monster.nameFr.getD []).map Char.toLower
    isSubstringOf name_lower monster_name || isSubstringOf monster_name name_lower)

/-! ## Per-map files and the location resolver
(`src/Act2-1.py` lines 216-275) -/

/-- One NPC placement inside a `c_map_X.json` file. -/
structure NpcPlacement where
  vnum : Nat
  x : Nat
  y : Nat
deriving DecidableEq

/-- One portal inside a `c_map_X.json` file. -/
structure Portal where
  destination_map_id : Nat
  source_map_x : Nat
  source_map_y : Nat
deriving DecidableEq

/-- Parsed contents of a per-map structural file.  The code reads the
two lists with `map_data.get("npcs", [])` and `map_data.get("portals", [])`,
so a missing field is the empty list. -/
structure MapFile where
  npcs : List NpcPlacement
  portals : List Portal
deriving DecidableEq

/-- The map-file corpus: `load_map_file` (lines 216-226) returns the
parsed file, or absent on a missing file or parse error.  It re-reads
the corpus on every call, so it is a pure function of the map id. -/
def load_map_file (maps : Nat → Option MapFile) (map_id : Nat) :
    Option MapFile :=
  maps map_id

/-- The record written to cache namespace `"npc_locations"` (lines 265-270). -/
structure NpcLocRecord where
  map_id : Nat
  npc_vnum : Nat
  x : Nat
  y : Nat
deriving DecidableEq

def npc_locations_type : String := "npc_locations"

def npc_location_key_pre : String := "npc_location_"

/-- `f"npc_location_{npc_vnum}"` (line 245). -/
def npc_location_key (npc_vnum : Nat) : String :=
  npc_location_key_pre ++ natStr npc_vnum

/-- `range(1, 413)` (line 254): map ids 1 to 412 in ascending order. -/
def map_range : List Nat := List.range' 1 412

/-- The scan loop of `search_npc_location` (lines 254-272), instrumented
with the number of `load_map_file` calls (one per visited map id; a map
whose file is missing or unparseable is skipped, as is a loaded map whose
placement list has no matching vnum).  On the first matching map it
returns the map id with the first matching placement. -/
def scanMaps (maps : Nat → Option MapFile) (npc_vnum : Nat) :
    List Nat → Option (Nat × NpcPlacement) × Nat
  | [] => (none, 0)
  | map_id :: rest =>
    match load_map_file maps map_id with
    | none =>
      let r := scanMaps maps npc_vnum rest
      (r.1, r.2 + 1)
    | some map_data =>
      match map_data.npcs.find? (fun npc => npc.vnum == npc_vnum) with
      | some npc => (some (map_id, npc), 1)
      | none =>
        let r := scanMaps maps npc_vnum rest
        (r.1, r.2 + 1)

/-- `GameDataManager.search_npc_location` (lines 239-275).  Returns the
found map id (or absent), the resulting cache store, and the number of
`load_map_file` calls made.  The Python cache-hit test `if cached:` is
truthiness of the stored record; every record written under this
namespace is a non-empty dict, hence truthy, so the test is modelled as
presence.  A negative scan result is returned without touching the cache. -/
def search_npc_location (maps : Nat → Option MapFile)
    (cache : Store NpcLocRecord) (npc_vnum : Nat) :
    Option Nat × Store NpcLocRecord × Nat :=
  let cache_key := npc_location_key npc_vnum
  match CacheManager.get cache npc_locations_type cache_key with
  | some cached => (some cached.map_id, cache, 0)
  | none =>
    match scanMaps maps npc_vnum map_range with
    | (some (map_id, npc), loads) =>
      (some map_id,
       CacheManager.set cache npc_locations_type cache_key
         ⟨map_id, npc_vnum, npc.x, npc.y⟩,
       loads)
    | (none, loads) => (none, cache, loads)

/-- Whether map `m` of the corpus contains a placement of vnum `v`. -/
def containsVnum (maps : Nat → Option MapFile) (m v : Nat) : Prop :=
  ∃ md, maps m = some md ∧ ∃ p ∈ md.npcs, p.vnum = v

/-! ## Route provider (`src/Act2-1.py` lines 277-318) -/

/-- The record written to cache namespace `"pathfinding"` (lines 300-304):
the JSON object `{"from": .., "to": .., "path": ..}`. -/
structure PathRecord where
  fromMap : Nat
  toMap : Nat
  path : List Nat
deriving DecidableEq

/-- Outcome of the HTTP routing request for one (source, destination)
pair: a 2xx response whose JSON body has an optional `path` field; a 2xx
response whose body fails to parse as JSON; a raised HTTP status error
(4xx/5xx, from `raise_for_status`); or a network-level failure. -/
inductive HttpOutcome where
  | ok (path : Option (List Nat))
  | okBadJson
  | httpError (status : Nat)
  | netError
deriving DecidableEq

/-- What the call reported (models the console diagnostics): a cache hit,
a successful fetch, the distinct 403 cookie-expired report (lines
310-312), another HTTP status report (line 314), or the generic failure
report (line 317). -/
inductive PathReport where
  | cacheHit
  | fetched
  | authExpired
  | httpFail (status : Nat)
  | otherFail
deriving DecidableEq

def pathfinding_type : String := "pathfinding"

def to_separator : String := "_to_"

/-- `f"{from_map}_to_{to_map}"` (line 283). -/
def pathfinding_key (from_map to_map : Nat) : String :=
  natStr from_map ++ to_separator ++ natStr to_map

/-- `GameDataManager.get_pathfinding` (lines 277-318).  Returns the path,
the resulting cache store, and the report.  The cache-hit test
`if cached:` is truthiness; records written under this namespace are
non-empty dicts, hence truthy, so the test is modelled as presence.  On a
hit the code returns `cached.get("path", [])`, which is the record's
path field.  On any failure the empty path is returned and nothing is
written to the cache. -/
def get_pathfinding (http : Nat → Nat → HttpOutcome)
    (cache : Store PathRecord) (from_map to_map : Nat) :
    List Nat × Store PathRecord × PathReport :=
  let cache_key := pathfinding_key from_map to_map
  match CacheManager.get cache pathfinding_type cache_key with
  | some cached => (cached.path, cache, .cacheHit)
  | none =>
    match http from_map to_map with
    | .ok pathField =>
      let path := pathField.getD []
      (path,
       CacheManager.set cache pathfinding_type cache_key
         ⟨from_map, to_map, path⟩,
       .fetched)
    | .okBadJson => ([], cache, .otherFail)
    | .httpError status =>
      if status = 403 then ([], cache, .authExpired)
      else ([], cache, .httpFail status)
    | .netError => ([], cache, .otherFail)

/-! ## Navigator (`src/Act2-1.py` lines 338-427)

The external collaborators are packaged in a `World`: the map-file
corpus, the HTTP routing oracle, and the position feed of the
game-control API (`polls n` is the current map id reported by the n-th
position poll of the run; the x/y coordinates of the player are not
consulted by the travel logic and are omitted). -/

structure World where
  polls : Nat → Nat
  maps : Nat → Option MapFile
  http : Nat → Nat → HttpOutcome

/-- Mutable bot state: how many position polls have been consumed, the
last observed current map, the log of walk commands issued
(`walk_to` targets, in order), and the pathfinding cache store. -/
structure BotState where
  pollIdx : Nat
  current_map_id : Nat
  walkLog : List (Nat × Nat)
  cache : Store PathRecord

/-- `NostaleQuestBot.update_position` (lines 352-360): poll the
game-control API for the live position. -/
def update_position (w : World) (st : BotState) : BotState :=
  { st with current_map_id := w.polls st.pollIdx, pollIdx := st.pollIdx + 1 }

/-- `NostaleQuestBot.walk_to` (lines 419-427): issue a movement command,
wait, and refresh the position. -/
def walk_to (w : World) (x y : Nat) (st : BotState) : BotState :=
  update_position w { st with walkLog := st.walkLog ++ [(x, y)] }

/-- `GameDataManager.get_portal_to_next_map` (lines 320-332): first
portal of the current map whose destination is the next map. -/
def get_portal_to_next_map (maps : Nat → Option MapFile)
    (current_map next_map : Nat) : Option (Nat × Nat) :=
  match load_map_file maps current_map with
  | none => none
  | some map_data =>
    (map_data.portals.find? (fun p => p.destination_map_id == next_map)).map
      (fun p => (p.source_map_x, p.source_map_y))

/-- The hop loop of `travel_to_map` (lines 385-409): iterate over the
consecutive pairs of the route.  `recurse` is the desync-recovery
continuation — in `travel_to_map` it is instantiated with the recursive
call `travel_to_map w fuel target`, invoked when the freshly polled map
differs from the expected hop (lines 390-395). -/
def hops (w : World) (target : Nat)
    (recurse : BotState → Bool × BotState) :
    List (Nat × Nat) → BotState → Bool × BotState
  | [], st =>
    let st1 := update_position w st
    (st1.current_map_id == target, st1)
  | (current, next_map) :: rest, st =>
    let st1 := update_position w st
    if st1.current_map_id ≠ current then recurse st1
    else
      match get_portal_to_next_map w.maps current next_map with
      | none => (false, st1)
      | some portal_pos =>
        hops w target recurse rest (walk_to w portal_pos.1 portal_pos.2 st1)

/-- `NostaleQuestBot.travel_to_map` (lines 366-417).  The Python method
recurses on itself with no bound when a desync is detected; the `fuel`
argument makes that recursion well-founded in the embedding (each
recursive re-invocation consumes one unit; the spec notes the recursion
is unbounded in the source).  Returns the success flag and final state. -/
def travel_to_map (w : World) : Nat → Nat → BotState → Bool × BotState
  | 0, _, st => (false, st)
  | fuel + 1, target_map, st =>
    let st1 := update_position w st
    if st1.current_map_id = target_map then (true, st1)
    else
      let r := get_pathfinding w.http st1.cache st1.current_map_id target_map
      let st2 := { st1 with cache := r.2.1 }
      if r.1.length < 2 then (false, st2)
      else
        hops w target_map (travel_to_map w fuel target_map)
          (r.1.zip r.1.tail) st2

/-! ## Concrete worlds used by the witnesses -/

/-- Map corpus for the C2 witness: vnum 4013 sits on map 20 at (45, 60)
and nowhere else (the spec's end-to-end scenario). -/
def mapsW2 : Nat → Option MapFile :=
  fun i => if i = 20 then some ⟨[⟨4013, 45, 60⟩], []⟩ else none

/-- Cache for the C3 witness: the location of vnum 7 is already cached. -/
def cacheW3 : Store NpcLocRecord :=
  CacheManager.set Store.empty npc_locations_type (npc_location_key 7)
    ⟨5, 7, 1, 2⟩

/-- Empty map corpus for the C4 witness: no map contains any vnum. -/
def mapsW4 : Nat → Option MapFile := fun _ => none

/-- Routing oracle for the C6 witness: every request fails at the
network level. -/
def httpW6 : Nat → Nat → HttpOutcome := fun _ _ => .netError

/-- Routing oracle for the C7 witness: every request succeeds with the
route [1, 2]. -/
def httpW7 : Nat → Nat → HttpOutcome := fun _ _ => .ok (some [1, 2])

/-- World for the C8 witness: the position feed always reports map 9. -/
def worldW8 : World :=
  { polls := fun _ => 9, maps := fun _ => none, http := fun _ _ => .netError }

/-- Initial bot state for the navigator witnesses. -/
def stW : BotState :=
  { pollIdx := 0, current_map_id := 0, walkLog := [], cache := Store.empty }

/-- World for the C9 witness: the position feed always reports map 1 and
every routing request fails, so no route is available. -/
def worldW9 : World :=
  { polls := fun _ => 1, maps := fun _ => none, http := fun _ _ => .netError }

/-! # Theorems -/

/-! ## Helper lemmas about decimal rendering and keys -/

theorem digitsVal_append_singleton (l : List Char) (c : Char) :
    digitsVal (l ++ [c]) = digitsVal l * 10 + (c.toNat - 48) := by
  simp [digitsVal, List.foldl_append]

theorem digitChar_val : ∀ d, d < 10 → (Nat.digitChar d).toNat - 48 = d := by decide

theorem digitChar_ne_underscore : ∀ d, d < 10 → Nat.digitChar d ≠ '_' := by decide

theorem natDecReprAux_val :
    ∀ fuel n, n < fuel → digitsVal (natDecReprAux fuel n) = n := by
  intro fuel
  induction fuel with
  | zero => intro n h; omega
  | succ f ih =>
    intro n h
    by_cases h10 : n < 10
    · simp [natDecReprAux, h10, digitsVal, digitChar_val n h10]
    · rw [natDecReprAux, if_neg h10, digitsVal_append_singleton,
        ih (n / 10) (by omega), digitChar_val (n % 10) (by omega)]
      omega

theorem natDecRepr_val (n : Nat) : digitsVal (natDecRepr n) = n :=
  natDecReprAux_val (n + 1) n (by omega)

theorem natDecRepr_inj {a b : Nat} (h : natDecRepr a = natDecRepr b) : a = b := by
  rw [← natDecRepr_val a, h, natDecRepr_val]

theorem underscore_not_mem_natDecReprAux :
    ∀ fuel n, '_' ∉ natDecReprAux fuel n := by
  intro fuel
  induction fuel with
  | zero => intro n; simp [natDecReprAux]
  | succ f ih =>
    intro n
    by_cases h10 : n < 10
    · rw [natDecReprAux, if_pos h10]
      simp only [List.mem_singleton]
      exact fun h => (digitChar_ne_underscore n h10) h.symm
    · rw [natDecReprAux, if_neg h10]
      intro hmem
      rcases List.mem_append.mp hmem with h | h
      · exact ih (n / 10) h
      · rw [List.mem_singleton] at h
        exact digitChar_ne_underscore (n % 10) (by omega) h.symm

theorem underscore_not_mem_natDecRepr (n : Nat) : '_' ∉ natDecRepr n :=
  underscore_not_mem_natDecReprAux (n + 1) n

/-- Splitting a character string at an underscore delimiter is unambiguous
when neither candidate left part contains an underscore. -/
theorem split_at_underscore :
    ∀ (xs ys r1 r2 : List Char), '_' ∉ xs → '_' ∉ ys →
      xs ++ '_' :: r1 = ys ++ '_' :: r2 → xs = ys ∧ r1 = r2 := by
  intro xs
  induction xs with
  | nil =>
    intro ys r1 r2 _ hy h
    cases ys with
    | nil => simpa using h
    | cons b bs =>
      simp only [List.nil_append, List.cons_append, List.cons.injEq] at h
      exact absurd (h.1 ▸ List.mem_cons_self b bs) hy
  | cons a as ih =>
    intro ys r1 r2 hx hy h
    cases ys with
    | nil =>
      simp only [List.nil_append, List.cons_append, List.cons.injEq] at h
      exact absurd (h.1 ▸ List.mem_cons_self a as) hx
    | cons b bs =>
      simp only [List.cons_append, List.cons.injEq] at h
      obtain ⟨hab, htail⟩ := h
      have hx' : '_' ∉ as := fun hm => hx (List.mem_cons_of_mem a hm)
      have hy' : '_' ∉ bs := fun hm => hy (List.mem_cons_of_mem b hm)
      obtain ⟨h1, h2⟩ := ih bs r1 r2 hx' hy' htail
      exact ⟨by rw [hab, h1], h2⟩

theorem string_data_append (a b : String) : (a ++ b).data = a.data ++ b.data := by
  cases a; cases b; rfl

/-- The empty string is a substring of every string (Python's
`"" in s` is always true). -/
theorem isSubstringOf_nil_left (l : List Char) : isSubstringOf [] l = true := by
  cases l <;> simp [isSubstringOf, List.isEmpty, List.isPrefixOf]

/-- The directional pathfinding key schema never confuses (A, B) with
(B, A) for distinct maps. -/
theorem pathfinding_key_ne {a b : Nat} (h : a ≠ b) :
    pathfinding_key a b ≠ pathfinding_key b a := by
  intro heq
  apply h
  have hd := congrArg String.data heq
  simp only [pathfinding_key, string_data_append] at hd
  have hsep : (to_separator).data = '_' :: 't' :: 'o' :: '_' :: [] := rfl
  rw [hsep] at hd
  simp only [natStr, List.cons_append, List.nil_append, List.append_assoc] at hd
  exact natDecRepr_inj
    (split_at_underscore _ _ _ _ (underscore_not_mem_natDecRepr a)
      (underscore_not_mem_natDecRepr b) hd).1

/-! ## Claim C5: cache round trip -/

/-- C5: for every cache type, key and JSON-serializable value,
`CacheManager.set` followed by `CacheManager.get` on the same key returns
a value equal to the one written; a second get without an intervening set
(the store is left untouched by a get) returns the same value again; and
a second set for the same key overwrites the previous value
unconditionally. -/
theorem cache_set_get_roundtrip {V : Type} (c : Store V)
    (cache_type key : String) (v v2 : V) :
    CacheManager.get (CacheManager.set c cache_type key v) cache_type key = some v
    ∧ CacheManager.getS (CacheManager.set c cache_type key v) cache_type key
        = (some v, CacheManager.set c cache_type key v)
    ∧ CacheManager.get
        (CacheManager.getS (CacheManager.set c cache_type key v) cache_type key).2
        cache_type key = some v
    ∧ CacheManager.get
        (CacheManager.set (CacheManager.set c cache_type key v) cache_type key v2)
        cache_type key = some v2 := by
  refine ⟨?_, ?_, ?_, ?_⟩ <;>
    simp [CacheManager.get, CacheManager.getS, CacheManager.set]

/-! ## Claim C1: the three dataset sources -/

/-- C1 (claim refuted by the code, recorded as a code bug): the claim
says the NPC index and the monster index load from distinct sources.  In
the source, line 31 sets `NPCS_JSON` to the monster definitions file, so
`NPCS_JSON = MONSTERS_JSON`, `load_all_data` builds the two indexes from
the very same file for every filesystem, and `find_npc_by_name` searches
exactly the records `find_monster_by_name` searches.  Only the
map-metadata source is distinct.  (The script's own startup banner and
error messages require and mention `npcs.json`, so the constant is a
slip in the code, not spec intent.) -/
theorem npc_and_monster_sources_coincide :
    NPCS_JSON = MONSTERS_JSON
    ∧ MAPS_JSON ≠ NPCS_JSON
    ∧ (∀ fs : String → Option EntityFileData,
        (load_all_data fs).npcs_data = (load_all_data fs).monsters_data)
    ∧ (∀ (fs : String → Option EntityFileData) (pat : List Char),
        find_npc_by_name pat (dictValues (load_all_data fs).npcs_data)
          = find_monster_by_name pat (dictValues (load_all_data fs).monsters_data)) :=
  ⟨rfl, by decide, fun _ => rfl, fun _ _ => rfl⟩

/-! ## Claim C10: empty names match everything -/

/-- C10: in `find_npc_by_name` and `find_monster_by_name`, a record
whose French display name is absent or empty matches every search
pattern (the empty name is a substring of any pattern under the
bidirectional substring test), so such a record, when first in iteration
order, is returned for every lookup; and the empty pattern matches every
entity, so a lookup with the empty pattern returns the first record of
the index whatever it is. -/
theorem empty_name_matches_every_pattern
    (pat : List Char) (e : Entity) (rest : List Entity)
    (npcs : List Entity)
    (hempty : e.nameFr = none ∨ e.nameFr = some []) :
    find_npc_by_name pat (e :: rest) = some e
    ∧ find_monster_by_name pat (e :: rest) = some e
    ∧ find_npc_by_name [] npcs = npcs.head?
    ∧ find_monster_by_name [] npcs = npcs.head? := by
  have hname : (e.nameFr.getD []).map Char.toLower = [] := by
    rcases hempty with h | h <;> simp [h]
  refine ⟨?_, ?_, ?_, ?_⟩
  · simp [find_npc_by_name, List.find?_cons_of_pos, hname, isSubstringOf_nil_left]
  · simp [find_monster_by_name, List.find?_cons_of_pos, hname, isSubstringOf_nil_left]
  · cases npcs with
    | nil => rfl
    | cons a as => simp [find_npc_by_name, isSubstringOf_nil_left]
  · cases npcs with
    | nil => rfl
    | cons a as => simp [find_monster_by_name, isSubstringOf_nil_left]

/-- Witness for C10 at a concrete input: the nameless record with id 77,
placed first, is returned for the pattern "koaren", and the empty
pattern returns the head of a concrete two-entry index. -/
theorem empty_name_matches_every_pattern_witness :
    ((⟨77, none⟩ : Entity).nameFr = none ∨ (⟨77, none⟩ : Entity).nameFr = some [])
    ∧ (find_npc_by_name ['k', 'o', 'a', 'r', 'e', 'n']
          [⟨77, none⟩, ⟨4013, some ['C', 'o', 'l', 'l', 'y']⟩] = some ⟨77, none⟩
      ∧ find_monster_by_name ['k', 'o', 'a', 'r', 'e', 'n']
          [⟨77, none⟩, ⟨4013, some ['C', 'o', 'l', 'l', 'y']⟩] = some ⟨77, none⟩
      ∧ find_npc_by_name []
          [⟨1, some ['A']⟩, ⟨2, some ['B']⟩]
          = [(⟨1, some ['A']⟩ : Entity), ⟨2, some ['B']⟩].head?
      ∧ find_monster_by_name []
          [⟨1, some ['A']⟩, ⟨2, some ['B']⟩]
          = [(⟨1, some ['A']⟩ : Entity), ⟨2, some ['B']⟩].head?) :=
  ⟨Or.inl rfl,
   empty_name_matches_every_pattern ['k', 'o', 'a', 'r', 'e', 'n']
     ⟨77, none⟩ [⟨4013, some ['C', 'o', 'l', 'l', 'y']⟩]
     [⟨1, some ['A']⟩, ⟨2, some ['B']⟩] (Or.inl rfl)⟩

/-! ## Helper lemmas about the map scan -/

/-- Scanning a stretch of maps none of which contains the vnum finds
nothing there: the scan passes through to the continuation, adding one
`load_map_file` call per visited map id. -/
theorem scan_append_skip (maps : Nat → Option MapFile) (v : Nat) :
    ∀ l1 l2 : List Nat, (∀ m ∈ l1, ¬ containsVnum maps m v) →
      scanMaps maps v (l1 ++ l2)
        = ((scanMaps maps v l2).1, (scanMaps maps v l2).2 + l1.length) := by
  intro l1
  induction l1 with
  | nil => intro l2 _; simp
  | cons mh lt ih =>
    intro l2 hall
    have hmh : ¬ containsVnum maps mh v := hall mh (List.mem_cons_self mh lt)
    have hrest := ih l2 (fun x hx => hall x (List.mem_cons_of_mem _ hx))
    cases hmd : maps mh with
    | none =>
      simp [scanMaps, load_map_file, hmd, hrest, Nat.add_assoc]
    | some md =>
      have hfind : md.npcs.find? (fun p => p.vnum == v) = none := by
        apply List.find?_eq_none.mpr
        intro p hp hpv
        exact hmh ⟨md, hmd, p, hp, by simpa using hpv⟩
      simp [scanMaps, load_map_file, hmd, hfind, hrest, Nat.add_assoc]

/-- A scan over maps none of which contains the vnum is exhausted with
one `load_map_file` call per map id and no result. -/
theorem scan_all_skip (maps : Nat → Option MapFile) (v : Nat)
    (l : List Nat) (hall : ∀ m ∈ l, ¬ containsVnum maps m v) :
    scanMaps maps v l = (none, l.length) := by
  have h := scan_append_skip maps v l [] hall
  simpa [scanMaps] using h

/-- Splitting the scanned range `1..412` at a map id `m` inside it. -/
theorem map_range_split {m : Nat} (h1 : 1 ≤ m) (h2 : m ≤ 412) :
    map_range
      = List.range' 1 (m - 1) ++ (m :: List.range' (m + 1) (412 - m)) := by
  have e1 : 1 + 1 * (m - 1) = m := by omega
  have e2 : (413 - m) + (m - 1) = 412 := by omega
  have e3 : 413 - m = (412 - m) + 1 := by omega
  have h := List.range'_append 1 (m - 1) (413 - m) 1
  rw [e1, e2] at h
  rw [map_range, ← h, e3, List.range'_succ]

/-! ## Claim C2: the cold scan -/

/-- C2: on a cache miss, `search_npc_location` scans map identifiers in
ascending order over the full known range 1..412 (the corpus
`c_map_1.json` .. `c_map_412.json`); on the first map `m` whose placement
list contains vnum `v` it writes the full record
`{map_id: m, npc_vnum: v, x, y}` to the cache under namespace
`"npc_locations"` and key `"npc_location_{v}"` and returns `m`.  The
load-call count `m` confirms that exactly the maps 1..m were visited, in
ascending order. -/
theorem search_npc_location_scans_and_caches
    (maps : Nat → Option MapFile) (cache : Store NpcLocRecord) (v m : Nat)
    (hmiss : CacheManager.get cache npc_locations_type (npc_location_key v) = none)
    (h1 : 1 ≤ m) (h2 : m ≤ 412)
    (hfound : containsVnum maps m v)
    (hleast : ∀ m', 1 ≤ m' → m' < m → ¬ containsVnum maps m' v) :
    ∃ md npc,
      maps m = some md
      ∧ md.npcs.find? (fun p => p.vnum == v) = some npc
      ∧ npc.vnum = v
      ∧ search_npc_location maps cache v
          = (some m,
             CacheManager.set cache npc_locations_type (npc_location_key v)
               ⟨m, v, npc.x, npc.y⟩,
             m) := by
  obtain ⟨md, hmd, p, hp, hpv⟩ := hfound
  have hfindSome : (md.npcs.find? (fun q => q.vnum == v)).isSome :=
    List.find?_isSome.mpr ⟨p, hp, by simp [hpv]⟩
  obtain ⟨npc, hnpc⟩ := Option.isSome_iff_exists.mp hfindSome
  have hnv : npc.vnum = v := by simpa using List.find?_some hnpc
  refine ⟨md, npc, hmd, hnpc, hnv, ?_⟩
  have hskipall : ∀ x ∈ List.range' 1 (m - 1), ¬ containsVnum maps x v := by
    intro x hx
    have hx' := List.mem_range'_1.mp hx
    exact hleast x hx'.1 (by omega)
  have hhead : scanMaps maps v (m :: List.range' (m + 1) (412 - m))
      = (some (m, npc), 1) := by
    simp [scanMaps, load_map_file, hmd, hnpc]
  have hscan : scanMaps maps v map_range = (some (m, npc), m) := by
    rw [map_range_split h1 h2,
      scan_append_skip maps v (List.range' 1 (m - 1)) _ hskipall, hhead]
    simp [List.length_range']
    omega
  simp [search_npc_location, hmiss, hscan]

/-- Witness for C2: the spec's end-to-end scenario.  Vnum 4013 sits only
on map 20 at (45, 60); starting from the empty cache, the search scans
maps 1..20 (20 load calls), returns 20, and writes the record
`{map_id: 20, npc_vnum: 4013, x: 45, y: 60}` under the stated key. -/
theorem search_npc_location_scans_and_caches_witness :
    ∃ md npc,
      mapsW2 20 = some md
      ∧ md.npcs.find? (fun p => p.vnum == 4013) = some npc
      ∧ npc.vnum = 4013
      ∧ search_npc_location mapsW2 Store.empty 4013
          = (some 20,
             CacheManager.set Store.empty npc_locations_type
               (npc_location_key 4013) ⟨20, 4013, npc.x, npc.y⟩,
             20) :=
  search_npc_location_scans_and_caches mapsW2 Store.empty 4013 20
    rfl (by omega) (by omega)
    ⟨⟨[⟨4013, 45, 60⟩], []⟩, rfl, ⟨4013, 45, 60⟩, by simp, rfl⟩
    (fun m' _ hlt hcontra => by
      obtain ⟨md, hmd, -⟩ := hcontra
      rw [show mapsW2 m' = none from by simp [mapsW2]; omega] at hmd
      exact Option.noConfusion hmd)

/-! ## Claim C3: memoization -/

/-- C3: once `search_npc_location` has returned a map identifier `m` for
vnum `v`, calling it again on the resulting cache returns the same `m`
from the cache, leaves the cache unchanged, and makes zero
`load_map_file` calls.  (Since the call leaves the store untouched, the
same holds for every subsequent call by iteration.) -/
theorem search_npc_location_memoized
    (maps : Nat → Option MapFile) (cache : Store NpcLocRecord) (v m : Nat)
    (h : (search_npc_location maps cache v).1 = some m) :
    search_npc_location maps (search_npc_location maps cache v).2.1 v
      = (some m, (search_npc_location maps cache v).2.1, 0) := by
  cases hc : CacheManager.get cache npc_locations_type (npc_location_key v) with
  | some r =>
    have hm : r.map_id = m := by
      simpa [search_npc_location, hc] using h
    simp [search_npc_location, hc, hm]
  | none =>
    rcases hs : scanMaps maps v map_range with ⟨res, loads⟩
    cases res with
    | none =>
      simp [search_npc_location, hc, hs] at h
    | some pr =>
      obtain ⟨mid, npc⟩ := pr
      have hm : mid = m := by
        simpa [search_npc_location, hc, hs] using h
      subst hm
      have hfirst : search_npc_location maps cache v
          = (some mid,
             CacheManager.set cache npc_locations_type (npc_location_key v)
               ⟨mid, v, npc.x, npc.y⟩,
             loads) := by
        simp [search_npc_location, hc, hs]
      rw [hfirst]
      have hget : CacheManager.get
          (CacheManager.set cache npc_locations_type (npc_location_key v)
            ⟨mid, v, npc.x, npc.y⟩)
          npc_locations_type (npc_location_key v)
          = some ⟨mid, v, npc.x, npc.y⟩ := by
        simp [CacheManager.get, CacheManager.set]
      simp [search_npc_location, hget]

/-- Witness for C3: with the location of vnum 7 already cached as map 5,
a call returns 5, and the next call on the resulting store returns the
same 5 with zero `load_map_file` calls. -/
theorem search_npc_location_memoized_witness :
    (search_npc_location mapsW4 cacheW3 7).1 = some 5
    ∧ search_npc_location mapsW4 (search_npc_location mapsW4 cacheW3 7).2.1 7
        = (some 5, (search_npc_location mapsW4 cacheW3 7).2.1, 0) :=
  ⟨by decide, search_npc_location_memoized mapsW4 cacheW3 7 5 (by decide)⟩

/-! ## Claim C4: negative results are not cached -/

/-- C4: for a vnum not present on any map of the scanned range, starting
from a cache with no entry for it, `search_npc_location` returns absent
and leaves the cache unchanged — in particular no entry exists afterwards
under namespace `"npc_locations"` and key `"npc_location_{v}"` — so a
later call for the same vnum performs the full scan again (412
`load_map_file` calls, one per map of the corpus). -/
theorem search_npc_location_negative
    (maps : Nat → Option MapFile) (cache : Store NpcLocRecord) (v : Nat)
    (hmiss : CacheManager.get cache npc_locations_type (npc_location_key v) = none)
    (habs : ∀ m, 1 ≤ m → m ≤ 412 → ¬ containsVnum maps m v) :
    search_npc_location maps cache v = (none, cache, 412)
    ∧ CacheManager.get (search_npc_location maps cache v).2.1 npc_locations_type
        (npc_location_key v) = none
    ∧ (search_npc_location maps (search_npc_location maps cache v).2.1 v).2.2
        = 412 := by
  have hall : ∀ x ∈ map_range, ¬ containsVnum maps x v := by
    intro x hx
    simp only [map_range] at hx
    have hx' := List.mem_range'_1.mp hx
    exact habs x hx'.1 (by omega)
  have hscan : scanMaps maps v map_range = (none, 412) := by
    rw [scan_all_skip maps v map_range hall]
    simp [map_range, List.length_range']
  have hfirst : search_npc_location maps cache v = (none, cache, 412) := by
    simp [search_npc_location, hmiss, hscan]
  refine ⟨hfirst, ?_, ?_⟩
  · rw [hfirst]
    exact hmiss
  · have hcache : (search_npc_location maps cache v).2.1 = cache := by
      rw [hfirst]
    rw [hcache, hfirst]

/-- Witness for C4: no map of the empty corpus contains vnum 9999; from
the empty cache the search returns absent, writes nothing, and a retry
performs the full 412-map scan. -/
theorem search_npc_location_negative_witness :
    search_npc_location mapsW4 Store.empty 9999 = (none, Store.empty, 412)
    ∧ CacheManager.get (search_npc_location mapsW4 Store.empty 9999).2.1
        npc_locations_type (npc_location_key 9999) = none
    ∧ (search_npc_location mapsW4
        (search_npc_location mapsW4 Store.empty 9999).2.1 9999).2.2 = 412 :=
  search_npc_location_negative mapsW4 Store.empty 9999 rfl
    (fun _ _ _ hc => by
      obtain ⟨md, hmd, -⟩ := hc
      exact Option.noConfusion hmd)

/-! ## Claim C6: HTTP failures return an empty route and cache nothing -/

/-- C6: when the routing request fails over HTTP (any non-success
outcome), `get_pathfinding` returns an empty route and writes nothing to
the cache; a 403 response is reported as the distinct
authentication-expired condition while every other failure (network
error, malformed body, other status) is reported differently; and since
the empty result is not cached, a subsequent request for the same pair
misses the cache again and retries the remote call. -/
theorem get_pathfinding_failure_not_cached
    (http : Nat → Nat → HttpOutcome) (cache : Store PathRecord)
    (from_map to_map : Nat)
    (hmiss : CacheManager.get cache pathfinding_type
        (pathfinding_key from_map to_map) = none)
    (hfail : ∀ p, http from_map to_map ≠ HttpOutcome.ok p) :
    (get_pathfinding http cache from_map to_map).1 = []
    ∧ (get_pathfinding http cache from_map to_map).2.1 = cache
    ∧ (http from_map to_map = HttpOutcome.httpError 403 →
        (get_pathfinding http cache from_map to_map).2.2 = PathReport.authExpired)
    ∧ (∀ s, s ≠ 403 → http from_map to_map = HttpOutcome.httpError s →
        (get_pathfinding http cache from_map to_map).2.2 = PathReport.httpFail s)
    ∧ ((http from_map to_map = HttpOutcome.okBadJson
        ∨ http from_map to_map = HttpOutcome.netError) →
        (get_pathfinding http cache from_map to_map).2.2 = PathReport.otherFail)
    ∧ (∀ s, PathReport.authExpired ≠ PathReport.httpFail s)
    ∧ PathReport.authExpired ≠ PathReport.otherFail
    ∧ (get_pathfinding http
        (get_pathfinding http cache from_map to_map).2.1 from_map to_map).2.2
        ≠ PathReport.cacheHit := by
  cases hh : http from_map to_map with
  | ok p => exact absurd hh (hfail p)
  | okBadJson =>
    refine ⟨?_, ?_, ?_, ?_, ?_, ?_, ?_, ?_⟩ <;>
      simp [get_pathfinding, hmiss, hh]
  | httpError s =>
    by_cases hs : s = 403
    · subst hs
      refine ⟨?_, ?_, ?_, ?_, ?_, ?_, ?_, ?_⟩ <;>
        simp [get_pathfinding, hmiss, hh]
      exact fun s hs h => hs h.symm
    · refine ⟨?_, ?_, ?_, ?_, ?_, ?_, ?_, ?_⟩ <;>
        simp [get_pathfinding, hmiss, hh, hs]
  | netError =>
    refine ⟨?_, ?_, ?_, ?_, ?_, ?_, ?_, ?_⟩ <;>
      simp [get_pathfinding, hmiss, hh]

/-- Witness for C6: with an empty cache and a routing oracle that always
fails at the network level, the request for the pair (3, 8) yields the
empty route, an unchanged cache, the generic failure report, and a retry
that misses the cache again. -/
theorem get_pathfinding_failure_not_cached_witness :
    (get_pathfinding httpW6 Store.empty 3 8).1 = []
    ∧ (get_pathfinding httpW6 Store.empty 3 8).2.1 = Store.empty
    ∧ (httpW6 3 8 = HttpOutcome.httpError 403 →
        (get_pathfinding httpW6 Store.empty 3 8).2.2 = PathReport.authExpired)
    ∧ (∀ s, s ≠ 403 → httpW6 3 8 = HttpOutcome.httpError s →
        (get_pathfinding httpW6 Store.empty 3 8).2.2 = PathReport.httpFail s)
    ∧ ((httpW6 3 8 = HttpOutcome.okBadJson ∨ httpW6 3 8 = HttpOutcome.netError) →
        (get_pathfinding httpW6 Store.empty 3 8).2.2 = PathReport.otherFail)
    ∧ (∀ s, PathReport.authExpired ≠ PathReport.httpFail s)
    ∧ PathReport.authExpired ≠ PathReport.otherFail
    ∧ (get_pathfinding httpW6
        (get_pathfinding httpW6 Store.empty 3 8).2.1 3 8).2.2
        ≠ PathReport.cacheHit :=
  get_pathfinding_failure_not_cached httpW6 Store.empty 3 8 rfl
    (fun _ h => HttpOutcome.noConfusion h)

/-! ## Claim C7: the route cache is directional -/

/-- `get_pathfinding` reads the cache only at its own pair's key: two
stores that agree at `("pathfinding", "{A}_to_{B}")` produce the same
route and the same report for the request (A, B). -/
theorem get_pathfinding_read_congr
    (http : Nat → Nat → HttpOutcome) (c1 c2 : Store PathRecord)
    (from_map to_map : Nat)
    (h : c2 pathfinding_type (pathfinding_key from_map to_map)
        = c1 pathfinding_type (pathfinding_key from_map to_map)) :
    (get_pathfinding http c2 from_map to_map).1
      = (get_pathfinding http c1 from_map to_map).1
    ∧ (get_pathfinding http c2 from_map to_map).2.2
      = (get_pathfinding http c1 from_map to_map).2.2 := by
  simp only [get_pathfinding, CacheManager.get, h]
  cases c1 pathfinding_type (pathfinding_key from_map to_map) with
  | some r => exact ⟨rfl, rfl⟩
  | none =>
    cases http from_map to_map with
    | ok p => exact ⟨rfl, rfl⟩
    | okBadJson => exact ⟨rfl, rfl⟩
    | httpError s => by_cases hs : s = 403 <;> simp [hs]
    | netError => exact ⟨rfl, rfl⟩

/-- C7: the route cache is directional.  For two distinct maps A and B,
`get_pathfinding A B` writes at most the key `"{A}_to_{B}"` in cache
type `"pathfinding"` (every other namespace/key pair is untouched),
reads only that key (stores agreeing there behave identically), the keys
`"{A}_to_{B}"` and `"{B}_to_{A}"` differ, and consequently caching a
route record for (A, B) into any store leaves the route and report of a
request for (B, A) unchanged. -/
theorem pathfinding_cache_directional
    (http : Nat → Nat → HttpOutcome) (cache : Store PathRecord)
    (A B : Nat) (hAB : A ≠ B) :
    (∀ t k, (t ≠ pathfinding_type ∨ k ≠ pathfinding_key A B) →
      (get_pathfinding http cache A B).2.1 t k = cache t k)
    ∧ (∀ c2 : Store PathRecord,
        c2 pathfinding_type (pathfinding_key A B)
          = cache pathfinding_type (pathfinding_key A B) →
        (get_pathfinding http c2 A B).1 = (get_pathfinding http cache A B).1
        ∧ (get_pathfinding http c2 A B).2.2
          = (get_pathfinding http cache A B).2.2)
    ∧ pathfinding_key A B ≠ pathfinding_key B A
    ∧ (∀ r : PathRecord,
        (get_pathfinding http
          (CacheManager.set cache pathfinding_type (pathfinding_key A B) r)
          B A).1
          = (get_pathfinding http cache B A).1
        ∧ (get_pathfinding http
            (CacheManager.set cache pathfinding_type (pathfinding_key A B) r)
            B A).2.2
          = (get_pathfinding http cache B A).2.2) := by
  have hkey : pathfinding_key A B ≠ pathfinding_key B A := pathfinding_key_ne hAB
  refine ⟨?_, ?_, hkey, ?_⟩
  · intro t k htk
    have hne : ¬ (t = pathfinding_type ∧ k = pathfinding_key A B) := by
      rcases htk with h | h
      · exact fun hc => h hc.1
      · exact fun hc => h hc.2
    simp only [get_pathfinding, CacheManager.get]
    cases cache pathfinding_type (pathfinding_key A B) with
    | some r => rfl
    | none =>
      cases http A B with
      | ok p => simp [CacheManager.set, hne]
      | okBadJson => rfl
      | httpError s => by_cases hs : s = 403 <;> simp [hs]
      | netError => rfl
  · intro c2 h
    exact get_pathfinding_read_congr http cache c2 A B h
  · intro r
    apply get_pathfinding_read_congr
    have hne : pathfinding_key B A ≠ pathfinding_key A B :=
      fun h => hkey h.symm
    simp [CacheManager.set, hne]

/-- Witness for C7 at the concrete distinct pair (1, 2), with a routing
oracle that always answers the route [1, 2] and the empty cache. -/
theorem pathfinding_cache_directional_witness :
    (1 : Nat) ≠ 2
    ∧ ((∀ t k, (t ≠ pathfinding_type ∨ k ≠ pathfinding_key 1 2) →
        (get_pathfinding httpW7 Store.empty 1 2).2.1 t k = Store.empty t k)
      ∧ (∀ c2 : Store PathRecord,
          c2 pathfinding_type (pathfinding_key 1 2)
            = Store.empty pathfinding_type (pathfinding_key 1 2) →
          (get_pathfinding httpW7 c2 1 2).1
            = (get_pathfinding httpW7 Store.empty 1 2).1
          ∧ (get_pathfinding httpW7 c2 1 2).2.2
            = (get_pathfinding httpW7 Store.empty 1 2).2.2)
      ∧ pathfinding_key 1 2 ≠ pathfinding_key 2 1
      ∧ (∀ r : PathRecord,
          (get_pathfinding httpW7
            (CacheManager.set Store.empty pathfinding_type (pathfinding_key 1 2) r)
            2 1).1
            = (get_pathfinding httpW7 Store.empty 2 1).1
          ∧ (get_pathfinding httpW7
              (CacheManager.set Store.empty pathfinding_type (pathfinding_key 1 2) r)
              2 1).2.2
            = (get_pathfinding httpW7 Store.empty 2 1).2.2)) :=
  ⟨by decide, pathfinding_cache_directional httpW7 Store.empty 1 2 (by decide)⟩

/-! ## Claim C8: desync recovery -/

/-- C8: during hop traversal, whenever the freshly polled current map
differs from the expected hop, the navigator abandons the remainder of
the route and re-invokes `travel_to_map target` from the live position,
and the outcome of that recursive call is the outcome of the original
call.  The second part records that the recursive call (at successor
fuel), once its own fresh poll is not already at the target, performs a
fresh route lookup keyed on the newly polled current map. -/
theorem travel_desync_recovery
    (w : World) (fuel target current next_map : Nat)
    (rest : List (Nat × Nat)) (st : BotState)
    (hdesync : (update_position w st).current_map_id ≠ current) :
    hops w target (travel_to_map w fuel target)
        ((current, next_map) :: rest) st
      = travel_to_map w fuel target (update_position w st)
    ∧ (∀ f, fuel = f + 1 →
        (update_position w (update_position w st)).current_map_id ≠ target →
        travel_to_map w fuel target (update_position w st)
          = (let st1 := update_position w (update_position w st)
             let r := get_pathfinding w.http st1.cache st1.current_map_id target
             let st2 := { st1 with cache := r.2.1 }
             if r.1.length < 2 then (false, st2)
             else hops w target (travel_to_map w f target)
               (r.1.zip r.1.tail) st2)) := by
  constructor
  · simp [hops, hdesync]
  · intro f hf hne
    subst hf
    simp [travel_to_map, hne]

/-- Witness for C8: in a world whose position feed reports map 9, a hop
expecting map 3 desyncs immediately and the traversal equals the
recursive re-invocation from the live state. -/
theorem travel_desync_recovery_witness :
    (update_position worldW8 stW).current_map_id ≠ 3
    ∧ (hops worldW8 5 (travel_to_map worldW8 1 5)
          ((3, 4) :: []) stW
        = travel_to_map worldW8 1 5 (update_position worldW8 stW)
      ∧ (∀ f, 1 = f + 1 →
          (update_position worldW8 (update_position worldW8 stW)).current_map_id
            ≠ 5 →
          travel_to_map worldW8 1 5 (update_position worldW8 stW)
            = (let st1 := update_position worldW8 (update_position worldW8 stW)
               let r := get_pathfinding worldW8.http st1.cache
                 st1.current_map_id 5
               let st2 := { st1 with cache := r.2.1 }
               if r.1.length < 2 then (false, st2)
               else hops worldW8 5 (travel_to_map worldW8 f 5)
                 (r.1.zip r.1.tail) st2))) :=
  ⟨by decide,
   travel_desync_recovery worldW8 1 5 3 4 [] stW (by decide)⟩

/-! ## Claim C9: no-route short circuit -/

/-- C9: when the target differs from the freshly polled current map and
the route provider returns a route with fewer than 2 entries,
`travel_to_map` returns failure and issues no movement command (the walk
log is unchanged). -/
theorem travel_no_route
    (w : World) (fuel target : Nat) (st : BotState)
    (hne : (update_position w st).current_map_id ≠ target)
    (hshort : (get_pathfinding w.http (update_position w st).cache
        (update_position w st).current_map_id target).1.length < 2) :
    (travel_to_map w (fuel + 1) target st).1 = false
    ∧ (travel_to_map w (fuel + 1) target st).2.walkLog = st.walkLog := by
  have hne' : w.polls st.pollIdx ≠ target := by
    simpa [update_position] using hne
  have hshort' :
      (get_pathfinding w.http st.cache (w.polls st.pollIdx) target).1.length
        < 2 := by
    simpa [update_position] using hshort
  simp [travel_to_map, update_position, hne', hshort']

/-- Witness for C9: target 2 while every poll reports map 1 and every
routing request fails, so the returned route is empty; travel fails with
an empty walk log. -/
theorem travel_no_route_witness :
    (travel_to_map worldW9 1 2 stW).1 = false
    ∧ (travel_to_map worldW9 1 2 stW).2.walkLog = stW.walkLog :=
  travel_no_route worldW9 0 2 stW (by decide) (by decide)
